import Mathlib

/-!
Verification development for the Magic-Wheels-Dashboard repository.

The definitions below are a shallow embedding of the repository's
business logic:

* `GoHighLevelAPI.*` embeds the aggregation code of `app/api_client.py`
  (daily bucketing of opportunities, weekly/monthly roll-ups, and the
  lead-response metrics).
* `GoHighLevelOAuthClient.*` embeds the token lifecycle of
  `app/oauth_client.py` (validity check, refresh, GET/POST guard).
* `token_storage.*` embeds the sqlite single-row token store of
  `app/token_storage.py`.

Python floats holding monetary values and epoch timestamps are modelled
as exact rationals (`ℚ`); machine dictionaries with insertion order are
modelled as association lists; a Python function that can either return
a value, return `None`, or raise is modelled with the `PyResult` sum.
-/

/-! ## Calendar arithmetic (CPython `datetime` / `strftime` semantics) -/

/-- Gregorian leap-year test, as in `calendar.isleap`. -/
def isLeap (y : Nat) : Bool :=
  (y % 4 == 0 && y % 100 != 0) || y % 400 == 0

/-- Number of days in month `m` (1..12) of year `y`. -/
def monthLen (y m : Nat) : Nat :=
  if m = 2 then (if isLeap y then 29 else 28)
  else if m = 4 ∨ m = 6 ∨ m = 9 ∨ m = 11 then 30
  else 31

/-- Days in year `y` strictly before month `m` (1..12). -/
def daysBeforeMonth (y m : Nat) : Nat :=
  let base :=
    match m with
    | 1 => 0 | 2 => 31 | 3 => 59 | 4 => 90 | 5 => 120 | 6 => 151
    | 7 => 181 | 8 => 212 | 9 => 243 | 10 => 273 | 11 => 304 | 12 => 334
    | _ => 365
  if 3 ≤ m ∧ isLeap y = true then base + 1 else base

/-- Zero-based day of the year (Jan 1 ↦ 0), like `tm_yday - 1`. -/
def dayOfYear0 (y m d : Nat) : Nat :=
  daysBeforeMonth y m + d - 1

/-- Days in the proleptic Gregorian calendar strictly before year `y` (`y ≥ 1`). -/
def daysBeforeYear (y : Nat) : Nat :=
  365 * (y - 1) + (y - 1) / 4 + (y - 1) / 400 - (y - 1) / 100

/-- Days since 0001-01-01 (0001-01-01 ↦ 0), proleptic Gregorian. -/
def rataDie (y m d : Nat) : Nat :=
  daysBeforeYear y + dayOfYear0 y m d

/-- Day of the week with Sunday = 0 (`tm_wday` shifted to the `%U`/`%w`
convention); 0001-01-01 is a Monday. -/
def wday (y m d : Nat) : Nat :=
  (rataDie y m d + 1) % 7

/-- A parsed calendar date. -/
structure Date where
  year : Nat
  month : Nat
  day : Nat
deriving DecidableEq, Repr

/-- Numeric value of a decimal digit character. -/
def digitVal (c : Char) : Nat :=
  c.toNat - 48

/-- Embeds `datetime.strptime(date_str, '%Y-%m-%d')` on zero-padded
`YYYY-MM-DD` strings (the format the aggregation code itself produces):
returns `none` exactly when CPython would raise `ValueError`, including
out-of-range month or day-of-month. -/
def parseDateChars (cs : List Char) : Option Date :=
  match cs with
  | [y1, y2, y3, y4, c1, m1, m2, c2, d1, d2] =>
    if (c1 == '-') && (c2 == '-') && y1.isDigit && y2.isDigit && y3.isDigit
        && y4.isDigit && m1.isDigit && m2.isDigit && d1.isDigit && d2.isDigit then
      let y := ((digitVal y1 * 10 + digitVal y2) * 10 + digitVal y3) * 10 + digitVal y4
      let m := digitVal m1 * 10 + digitVal m2
      let d := digitVal d1 * 10 + digitVal d2
      if 1 ≤ y ∧ 1 ≤ m ∧ m ≤ 12 ∧ 1 ≤ d ∧ d ≤ monthLen y m then
        some ⟨y, m, d⟩
      else none
    else none
  | _ => none

/-- The `strptime('%Y-%m-%d')` embedding on strings. -/
def parseDate (s : String) : Option Date :=
  parseDateChars s.data

/-- Zero-padded two-digit rendering, as `strftime` does for `%U`. -/
def pad2 (n : Nat) : String :=
  if n < 10 then "0" ++ toString n else toString n

/-- The `strftime('%U')` week number: Sunday is the first day of the
week, and days before the first Sunday of the year are week 00.  This is
the C-library formula `(tm_yday + 7 - tm_wday) / 7` (with Sunday = 0). -/
def uWeek (y m d : Nat) : Nat :=
  (dayOfYear0 y m d + 7 - wday y m d) / 7

/-- The `date_obj.strftime('%Y-W%U')` key built at api_client.py:274. -/
def week_key (y m d : Nat) : String :=
  toString y ++ "-W" ++ pad2 (uWeek y m d)

/-- Embeds lines 273–274 of api_client.py: parse a daily key with
`strptime('%Y-%m-%d')` and format the `'%Y-W%U'` week key; `none` is the
uncaught `ValueError` of `strptime` on a malformed key. -/
def strftime_week (date_str : String) : Option String :=
  (parseDate date_str).map (fun dt => week_key dt.year dt.month dt.day)

/-! ## The aggregation code of `GoHighLevelAPI.process_data_for_dashboard` -/

namespace GoHighLevelAPI

/-- A JSON scalar as it can appear in an opportunity field. -/
inductive JVal
  | s (v : String)
  | n (v : ℚ)
  | null
deriving DecidableEq, Repr

/-- An opportunity record as consumed by the bucketing loops: each field
is `none` when the key is absent from the dict. -/
structure Opp where
  closedDate : Option JVal
  createdAt : Option JVal
  monetaryValue : Option JVal
deriving DecidableEq, Repr

/-- Digits folded into a natural number. -/
def natOfDigits (cs : List Char) : Nat :=
  cs.foldl (fun a c => a * 10 + digitVal c) 0

/-- Embeds Python `float()` on decimal strings: optional sign, an
integer part and/or a fractional part.  Returns `none` exactly when
`float(str)` raises `ValueError` (e.g. on `"abc"`). -/
def parseFloat (str : String) : Option ℚ :=
  let cs := str.toList
  let signAndRest : ℚ × List Char :=
    match cs with
    | '-' :: rest => (-1, rest)
    | '+' :: rest => (1, rest)
    | _ => (1, cs)
  let sign := signAndRest.1
  let body := signAndRest.2
  let ip := body.takeWhile Char.isDigit
  let rest := body.drop ip.length
  match rest with
  | [] =>
    if ip.isEmpty then none
    else some (sign * (natOfDigits ip : ℚ))
  | '.' :: fp =>
    if fp.all Char.isDigit && !(ip.isEmpty && fp.isEmpty) then
      some (sign * ((natOfDigits ip : ℚ) + (natOfDigits fp : ℚ) / (10 ^ fp.length)))
    else none
  | _ => none

/-- Embeds `opp.get('closedDate', opp.get('createdAt', '')).split('T')[0]`
(api_client.py:242): the closing date string, falling back to the
creation date when the `closedDate` key is absent, then to `''`;
`.split('T')[0]` keeps everything before the first `'T'`.  A non-string
value raises `AttributeError` (no `.split`), modelled as `Except.error`. -/
def opp_date (o : Opp) : Except String String :=
  match o.closedDate.getD (o.createdAt.getD (JVal.s "")) with
  | JVal.s str => Except.ok ⟨str.data.takeWhile (fun c => c ≠ 'T')⟩
  | _ => Except.error "AttributeError"

/-- Embeds `float(opp.get('monetaryValue', 0))` (api_client.py:243): a
missing key defaults to `0`; a numeric value is used as is; a numeric
string is parsed; a non-numeric string raises `ValueError` and `None`
raises `TypeError` — both uncaught, modelled as `Except.error`. -/
def opp_value (o : Opp) : Except String ℚ :=
  match o.monetaryValue.getD (JVal.n 0) with
  | JVal.n q => Except.ok q
  | JVal.s str =>
    match parseFloat str with
    | some q => Except.ok q
    | none => Except.error "ValueError"
  | JVal.null => Except.error "TypeError"

/-- Embeds `if k in dict: dict[k] += v else: dict[k] = v` on an
insertion-ordered dict, as in every bucketing loop of
`process_data_for_dashboard`. -/
def addTo : List (String × ℚ) → String → ℚ → List (String × ℚ)
  | [], k, v => [(k, v)]
  | (k', v') :: rest, k, v =>
    if k' = k then (k', v' + v) :: rest else (k', v') :: addTo rest k v

/-- The retail/rental daily-bucketing loop of api_client.py:239–260,
folded left over the records in order; the first record that raises
(non-string date, non-numeric monetary value) aborts the whole
computation, as the uncaught Python exception would. -/
def bucket_fold (acc : List (String × ℚ)) : List Opp → Except String (List (String × ℚ))
  | [] => Except.ok acc
  | opp :: rest =>
    match opp_date opp with
    | Except.error e => Except.error e
    | Except.ok date_str =>
      match opp_value opp with
      | Except.error e => Except.error e
      | Except.ok v => bucket_fold (addTo acc date_str v) rest

/-- Daily bucketing of a list of opportunity records
(`retail_by_date` / `rental_by_date`, api_client.py:239–260). -/
def bucket_by_date (opps : List Opp) : Except String (List (String × ℚ)) :=
  bucket_fold [] opps

/-- The weekly roll-up loop of api_client.py:272–288, folded over the
daily buckets in order; a daily key that `strptime` cannot parse raises
`ValueError`, modelled as `none`. -/
def weekly_fold (acc : List (String × ℚ)) : List (String × ℚ) → Option (List (String × ℚ))
  | [] => some acc
  | kv :: rest =>
    match strftime_week kv.1 with
    | some wk => weekly_fold (addTo acc wk kv.2) rest
    | none => none

/-- Weekly totals derived from daily buckets (api_client.py:268–288). -/
def weekly_totals (daily : List (String × ℚ)) : Option (List (String × ℚ)) :=
  weekly_fold [] daily

/-- Monthly totals derived from daily buckets (api_client.py:295–313):
the month key is `date_str[:7]`, i.e. the first seven characters. -/
def monthly_totals (daily : List (String × ℚ)) : List (String × ℚ) :=
  daily.foldl (fun acc kv => addTo acc ⟨kv.1.data.take 7⟩ kv.2) []

/-- Sum of the values of a bucket mapping. -/
def valsSum (m : List (String × ℚ)) : ℚ :=
  (m.map Prod.snd).sum

/-! ### Lead-response metrics (`get_lead_response_metrics`, api_client.py:103–131) -/

/-- A contact record as consumed by the metrics loop; `none` models an
absent key. -/
structure Contact where
  createdAt : Option String
  lastContactedDate : Option String
deriving DecidableEq, Repr

/-- Python truthiness of `contact.get(field)`: `None` and `''` are
falsy, any other string is truthy. -/
def truthy : Option String → Bool
  | none => false
  | some s => !s.data.isEmpty

/-- Replaces every occurrence of the character `Z` by `+00:00`. -/
def replaceZchars : List Char → List Char
  | [] => []
  | c :: rest =>
    if c = 'Z' then '+' :: '0' :: '0' :: ':' :: '0' :: '0' :: replaceZchars rest
    else c :: replaceZchars rest

/-- Embeds `created.replace('Z', '+00:00')` (api_client.py:119–120). -/
def pyRepZ (s : String) : String :=
  ⟨replaceZchars s.data⟩

/-- Embeds `datetime.fromisoformat` on `YYYY-MM-DDTHH:MM:SS` strings,
optionally suffixed with a `+00:00` offset (the shape produced by the
`Z` replacement above).  The result pairs the timestamp in seconds with
an awareness flag: `true` for an offset-aware datetime (`+00:00`
suffix), `false` for a naive one (no offset) — CPython keeps these as
distinct kinds of `datetime` objects and refuses to subtract one kind
from the other.  `none` is the uncaught `ValueError` on a malformed
string. -/
def fromiso (s : String) : Option (Int × Bool) :=
  let cs := s.data
  let aware := cs.length == 25 && cs.drop 19 == ['+', '0', '0', ':', '0', '0']
  let core := if aware then cs.take 19 else cs
  match core with
  | [y1, y2, y3, y4, a1, m1, m2, a2, d1, d2, 'T', h1, h2, ':', n1, n2, ':', s1, s2] =>
    match parseDateChars [y1, y2, y3, y4, a1, m1, m2, a2, d1, d2] with
    | some dt =>
      if h1.isDigit && h2.isDigit && n1.isDigit && n2.isDigit && s1.isDigit && s2.isDigit then
        let hh := digitVal h1 * 10 + digitVal h2
        let mm := digitVal n1 * 10 + digitVal n2
        let ss := digitVal s1 * 10 + digitVal s2
        if hh < 24 && mm < 60 && ss < 60 then
          some ((rataDie dt.year dt.month dt.day : Int) * 86400 + hh * 3600 + mm * 60 + ss, aware)
        else none
      else none
    | none => none
  | _ => none

/-- The response-time loop of api_client.py:114–122: for each contact
whose `createdAt` and `lastContactedDate` are both truthy, both strings
are parsed (an unparseable one raises `ValueError`, aborting the whole
call); the subtraction `contacted_dt - created_dt` then raises
`TypeError` when exactly one of the two datetimes is offset-aware
(mixed naive/aware pair), and otherwise the latency in minutes is
appended. -/
def response_time_list : List Contact → Except String (List ℚ)
  | [] => Except.ok []
  | c :: rest =>
    if truthy c.createdAt && truthy c.lastContactedDate then
      match fromiso (pyRepZ (c.createdAt.getD "")), fromiso (pyRepZ (c.lastContactedDate.getD "")) with
      | some cr, some ct =>
        if ct.2 == cr.2 then
          match response_time_list rest with
          | Except.ok ts => Except.ok ((((ct.1 - cr.1 : Int) : ℚ) / 60) :: ts)
          | Except.error e => Except.error e
        else Except.error "TypeError"
      | _, _ => Except.error "ValueError"
    else response_time_list rest

/-- The metrics dict returned by `get_lead_response_metrics`. -/
structure LeadMetrics where
  total_leads : Nat
  responded_leads : Nat
  response_rate : ℚ
  avg_response_time_minutes : ℚ
deriving DecidableEq, Repr

/-- Embeds `get_lead_response_metrics` (api_client.py:103–131) given the
contact list the API returned. -/
def get_lead_response_metrics (contacts : List Contact) : Except String LeadMetrics :=
  match response_time_list contacts with
  | Except.error e => Except.error e
  | Except.ok response_times =>
    let total_leads := contacts.length
    let responded_leads := (contacts.filter (fun c => truthy c.lastContactedDate)).length
    let avg := if response_times.isEmpty then 0
      else response_times.sum / (response_times.length : ℚ)
    let rate := if 0 < total_leads then (responded_leads : ℚ) / (total_leads : ℚ) else 0
    Except.ok ⟨total_leads, responded_leads, rate, avg⟩

end GoHighLevelAPI

/-! ## Claim-side (specification) definitions, for comparison with the code -/

/-- Modelled from the spec: the ISO-8601 weekday, Monday = 1 .. Sunday = 7. -/
def isoWeekday (y m d : Nat) : Nat :=
  let w := wday y m d
  if w = 0 then 7 else w

/-- Modelled from the spec: number of ISO-8601 weeks in year `y` (53 when
Jan 1 falls on a Thursday, or on a Wednesday of a leap year). -/
def isoWeeksInYear (y : Nat) : Nat :=
  let jan1 := wday y 1 1
  if jan1 == 4 || (isLeap y && jan1 == 3) then 53 else 52

/-- Modelled from the spec: the ISO-8601 week number of a date (weeks
start on Monday; week 1 is the week containing the first Thursday of
the year). -/
def isoWeekNum (y m d : Nat) : Nat :=
  let w := (dayOfYear0 y m d + 1 + 10 - isoWeekday y m d) / 7
  if w = 0 then isoWeeksInYear (y - 1)
  else if isoWeeksInYear y < w then 1
  else w

/-- The week key the spec's sentence asks for: the year together with
the ISO-8601 week number of the date within it. -/
def isoWeekKey (y m d : Nat) : String :=
  toString y ++ "-W" ++ pad2 (isoWeekNum y m d)

/-- Number of Sundays of year `y` that have occurred up to and including
the day with zero-based day-of-year `yd` — an independent description of
the Sunday-start week count that `%U` renders. -/
def sundayCount (y yd : Nat) : Nat :=
  ((List.range (yd + 1)).filter (fun j => (wday y 1 1 + j) % 7 == 0)).length

namespace GoHighLevelAPI

/-- A record is well shaped for the bucketing loop when the date value
it ends up using is a string and its `monetaryValue`, if present, is a
number or a numeric string. -/
def wf_opp (o : Opp) : Bool :=
  (match o.closedDate.getD (o.createdAt.getD (JVal.s "")) with
   | JVal.s _ => true
   | _ => false) &&
  (match o.monetaryValue.getD (JVal.n 0) with
   | JVal.n _ => true
   | JVal.s str => (parseFloat str).isSome
   | JVal.null => false)

/-- Date of a well-shaped record, as a total function. -/
def opp_date_total (o : Opp) : String :=
  match o.closedDate.getD (o.createdAt.getD (JVal.s "")) with
  | JVal.s str => ⟨str.data.takeWhile (fun c => c ≠ 'T')⟩
  | _ => ""

/-- Monetary value of a well-shaped record, as a total function. -/
def opp_value_total (o : Opp) : ℚ :=
  match o.monetaryValue.getD (JVal.n 0) with
  | JVal.n q => q
  | JVal.s str => (parseFloat str).getD 0
  | JVal.null => 0

/-- Daily bucketing as a total fold over well-shaped records. -/
def bucket_by_date_wf (opps : List Opp) : List (String × ℚ) :=
  opps.foldl (fun acc o => addTo acc (opp_date_total o) (opp_value_total o)) []

/-- Modelled from the spec: the response latencies, in minutes, of the
contacts having both a creation and a last-contact timestamp (a contact
whose timestamps do not parse, or form a mixed naive/aware pair that
cannot be subtracted, contributes nothing). -/
def spec_latencies : List Contact → List ℚ
  | [] => []
  | c :: rest =>
    if truthy c.createdAt && truthy c.lastContactedDate then
      match fromiso (pyRepZ (c.createdAt.getD "")), fromiso (pyRepZ (c.lastContactedDate.getD "")) with
      | some cr, some ct =>
        if ct.2 == cr.2 then (((ct.1 - cr.1 : Int) : ℚ) / 60) :: spec_latencies rest
        else spec_latencies rest
      | _, _ => spec_latencies rest
    else spec_latencies rest

end GoHighLevelAPI

/-! ## Token lifecycle (`app/oauth_client.py`) -/

/-- The observable outcome of a Python call that can return a value,
return `None`, or propagate an exception named by `exc`. -/
inductive PyResult (α : Type)
  | ok (val : α)
  | none
  | raised (exc : String)
deriving DecidableEq, Repr

/-- An OAuth token dict; each field is `none` when the key is absent. -/
structure TokenDict where
  access_token : Option String
  refresh_token : Option String
  token_type : Option String
  expires_at : Option ℚ
  scope : Option (List String)
deriving DecidableEq, Repr

/-- The mutable state of `GoHighLevelOAuthClient`: the in-memory
`self.token` and the token record persisted through `save_token`. -/
structure ClientState where
  token : Option TokenDict
  persisted : Option TokenDict
deriving DecidableEq, Repr

/-- The token endpoint's reply to a refresh request. -/
inductive TokenEndpointResponse
  | accept (t : TokenDict)
  | reject (status : Nat)
deriving DecidableEq, Repr

namespace GoHighLevelOAuthClient

/-- Embeds `is_token_valid` (oauth_client.py:131–143): `False` when
there is no token, when `expires_at` is absent or falsy (`0`), and
otherwise `now < expires_at - 300` with the five-minute buffer. -/
def is_token_valid (token : Option TokenDict) (now : ℚ) : Bool :=
  match token with
  | Option.none => false
  | some t =>
    match t.expires_at with
    | Option.none => false
    | some e => if e = 0 then false else decide (now < e - 300)

/-- Embeds `refresh_token` (oauth_client.py:111–129).  With no stored
token it logs and returns `None`.  Otherwise the refresh request is
attempted: a missing `refresh_token` field or a rejecting endpoint makes
the underlying library raise, the `except` clause logs and returns
`None`, and the state is untouched; on success the new token is saved
and becomes the in-memory token. -/
def refresh_token (st : ClientState) (resp : TokenEndpointResponse) :
    PyResult TokenDict × ClientState :=
  match st.token with
  | Option.none => (PyResult.none, st)
  | some tk =>
    match tk.refresh_token with
    | Option.none => (PyResult.none, st)
    | some _ =>
      match resp with
      | TokenEndpointResponse.accept t => (PyResult.ok t, ⟨some t, some t⟩)
      | TokenEndpointResponse.reject _ => (PyResult.none, st)

/-- What a `get`/`post` call observably did before (possibly) issuing
the HTTP request: how many refresh calls it made, and the token the
request was sent with (`none` when the call aborted). -/
structure GetOutcome where
  refreshCalls : Nat
  requested : Option TokenDict
deriving DecidableEq, Repr

/-- Embeds the guard of `get` (oauth_client.py:145–151): a valid token
is used as stored; otherwise `refresh_token` is called exactly once and
the request proceeds with the refreshed token, or aborts (`None`) when
the refresh failed. -/
def get (st : ClientState) (now : ℚ) (resp : TokenEndpointResponse) :
    GetOutcome × ClientState :=
  if is_token_valid st.token now then (⟨0, st.token⟩, st)
  else
    match refresh_token st resp with
    | (PyResult.ok t, st') => (⟨1, some t⟩, st')
    | (_, st') => (⟨1, Option.none⟩, st')

/-- Embeds the guard of `post` (oauth_client.py:162–168), identical to
the one of `get`. -/
def post (st : ClientState) (now : ℚ) (resp : TokenEndpointResponse) :
    GetOutcome × ClientState :=
  if is_token_valid st.token now then (⟨0, st.token⟩, st)
  else
    match refresh_token st resp with
    | (PyResult.ok t, st') => (⟨1, some t⟩, st')
    | (_, st') => (⟨1, Option.none⟩, st')

end GoHighLevelOAuthClient

/-! ## Token storage (`app/token_storage.py`) -/

namespace token_storage

/-- A row of the sqlite `tokens` table.  The `scope` column physically
holds `json.dumps` of the scope list; since `json.dumps`/`json.loads`
are mutually inverse on lists of strings (and never produce the empty
string), the column is modelled as the list itself. -/
structure TokenRow where
  token_type : String
  access_token : String
  refresh_token : String
  expires_at : ℚ
  scope : List String
  created_at : ℚ
  updated_at : ℚ
deriving DecidableEq, Repr

/-- The row `save_token` writes for token dict `t` (token_storage.py:
62–94): every field filled, with defaults `'Bearer'`, `''`, `0`, `[]`
for missing keys. -/
def row_of (t : TokenDict) (created updated : ℚ) : TokenRow where
  token_type := t.token_type.getD "Bearer"
  access_token := t.access_token.getD ""
  refresh_token := t.refresh_token.getD ""
  expires_at := t.expires_at.getD 0
  scope := t.scope.getD []
  created_at := created
  updated_at := updated

/-- Embeds `save_token` (token_storage.py:47–99) on the `tokens` table
(a list of `(id, row)` pairs): if a row with id 1 exists it is updated
in place (keeping `created_at`), otherwise a fresh row with id 1 is
inserted. -/
def save_token (now : ℚ) (t : TokenDict) (tbl : List (Nat × TokenRow)) :
    List (Nat × TokenRow) :=
  if (tbl.find? (fun r => r.1 == 1)).isSome then
    tbl.map (fun r => if r.1 == 1 then (1, row_of t r.2.created_at now) else r)
  else
    tbl ++ [(1, row_of t now now)]

/-- The five fields `load_token` returns. -/
structure LoadedToken where
  token_type : String
  access_token : String
  refresh_token : String
  expires_at : ℚ
  scope : List String
deriving DecidableEq, Repr

/-- Embeds `load_token` (token_storage.py:101–132): `SELECT ... WHERE
id = 1`, `None` when no such row exists. -/
def load_token (tbl : List (Nat × TokenRow)) : Option LoadedToken :=
  (tbl.find? (fun r => r.1 == 1)).map (fun r =>
    ⟨r.2.token_type, r.2.access_token, r.2.refresh_token, r.2.expires_at, r.2.scope⟩)

/-- Embeds `delete_token` (token_storage.py:134–147): `DELETE FROM
tokens WHERE id = 1`. -/
def delete_token (tbl : List (Nat × TokenRow)) : List (Nat × TokenRow) :=
  tbl.filter (fun r => r.1 != 1)

/-- An operation against the token store. -/
inductive StoreOp
  | save (now : ℚ) (t : TokenDict)
  | load
  | delete

/-- Runs a sequence of store operations from a given table state
(`load` reads but does not change the table). -/
def run_ops (tbl : List (Nat × TokenRow)) : List StoreOp → List (Nat × TokenRow)
  | [] => tbl
  | StoreOp.save now t :: rest => run_ops (save_token now t tbl) rest
  | StoreOp.load :: rest => run_ops tbl rest
  | StoreOp.delete :: rest => run_ops (delete_token tbl) rest

end token_storage

/-! ## Helper lemmas -/

namespace GoHighLevelAPI

theorem valsSum_nil : valsSum [] = 0 := rfl

theorem valsSum_cons (kv : String × ℚ) (l : List (String × ℚ)) :
    valsSum (kv :: l) = kv.2 + valsSum l := by
  simp [valsSum]

theorem valsSum_addTo (m : List (String × ℚ)) (k : String) (v : ℚ) :
    valsSum (addTo m k v) = valsSum m + v := by
  induction m with
  | nil => simp [addTo, valsSum]
  | cons kv rest ih =>
    obtain ⟨k', v'⟩ := kv
    by_cases h : k' = k
    · simp [addTo, h, valsSum_cons]
      ring
    · simp [addTo, h, valsSum_cons, ih]
      ring

theorem valsSum_foldl_addTo (f : String → String) (l : List (String × ℚ)) :
    ∀ acc : List (String × ℚ),
      valsSum (l.foldl (fun a kv => addTo a (f kv.1) kv.2) acc) = valsSum acc + valsSum l := by
  induction l with
  | nil => intro acc; simp [valsSum]
  | cons kv rest ih =>
    intro acc
    rw [List.foldl_cons, ih, valsSum_addTo, valsSum_cons]
    ring

theorem valsSum_monthly (daily : List (String × ℚ)) :
    valsSum (monthly_totals daily) = valsSum daily := by
  have h := valsSum_foldl_addTo (fun s => (⟨s.data.take 7⟩ : String)) daily []
  simpa [monthly_totals, valsSum_nil] using h

theorem weekly_fold_sum (l : List (String × ℚ))
    (h : ∀ kv ∈ l, (strftime_week kv.1).isSome = true) :
    ∀ acc : List (String × ℚ),
      ∃ w, weekly_fold acc l = some w ∧ valsSum w = valsSum acc + valsSum l := by
  induction l with
  | nil => intro acc; exact ⟨acc, rfl, by simp [valsSum]⟩
  | cons kv rest ih =>
    intro acc
    have hk := h kv (by simp)
    obtain ⟨wk, hwk⟩ := Option.isSome_iff_exists.mp hk
    obtain ⟨w, hw, hsum⟩ := ih (fun x hx => h x (by simp [hx])) (addTo acc wk kv.2)
    refine ⟨w, ?_, ?_⟩
    · simp [weekly_fold, hwk, hw]
    · rw [hsum, valsSum_addTo, valsSum_cons]
      ring

end GoHighLevelAPI

/-! ## Claim theorems -/

open GoHighLevelAPI GoHighLevelOAuthClient token_storage

/-- C3: for every input mapping of daily buckets (keyed by calendar
dates, so that the weekly `strptime` succeeds), summing the derived
monthly roll-up and summing the derived weekly roll-up each equals
summing the daily bucket values directly — every daily entry contributes
to exactly one coarser bucket, none dropped, none counted twice. -/
theorem rollup_preserves_totals (daily : List (String × ℚ))
    (h : ∀ kv ∈ daily, (strftime_week kv.1).isSome = true) :
    valsSum (monthly_totals daily) = valsSum daily ∧
    ∃ w, weekly_totals daily = some w ∧ valsSum w = valsSum daily := by
  refine ⟨valsSum_monthly daily, ?_⟩
  obtain ⟨w, hw, hsum⟩ := weekly_fold_sum daily h []
  exact ⟨w, hw, by simpa [valsSum_nil] using hsum⟩

/-- Witness for C3 at a concrete two-entry set of daily buckets. -/
theorem rollup_preserves_totals_witness :
    (∀ kv ∈ [ ( "2025-01-01", (5:ℚ) ), ( "2025-01-08", 7 ) ], (strftime_week kv.1).isSome = true) ∧
    (valsSum (monthly_totals [ ( "2025-01-01", (5:ℚ) ), ( "2025-01-08", 7 ) ]) =
        valsSum [ ( "2025-01-01", (5:ℚ) ), ( "2025-01-08", 7 ) ] ∧
      ∃ w, weekly_totals [ ( "2025-01-01", (5:ℚ) ), ( "2025-01-08", 7 ) ] = some w ∧
        valsSum w = valsSum [ ( "2025-01-01", (5:ℚ) ), ( "2025-01-08", 7 ) ]) :=
  ⟨by decide, rollup_preserves_totals _ (by decide)⟩

/-- C6: the three-record scenario buckets to exactly
`{"2025-01-01": 150, "2025-01-02": 200}` daily and `{"2025-01": 350}`
monthly. -/
theorem scenario_daily_and_monthly :
    bucket_by_date
        [⟨some (JVal.s "2025-01-01"), Option.none, some (JVal.n 100)⟩,
         ⟨some (JVal.s "2025-01-01"), Option.none, some (JVal.n 50)⟩,
         ⟨some (JVal.s "2025-01-02"), Option.none, some (JVal.n 200)⟩] =
      Except.ok [ ( "2025-01-01", 150 ), ( "2025-01-02", 200 ) ] ∧
    monthly_totals [ ( "2025-01-01", (150:ℚ) ), ( "2025-01-02", 200 ) ] =
      [ ( "2025-01", 350 ) ] := by
  constructor
  · have h : bucket_by_date
        [⟨some (JVal.s "2025-01-01"), Option.none, some (JVal.n 100)⟩,
         ⟨some (JVal.s "2025-01-01"), Option.none, some (JVal.n 50)⟩,
         ⟨some (JVal.s "2025-01-02"), Option.none, some (JVal.n 200)⟩] =
        Except.ok [ ( "2025-01-01", (100:ℚ) + 50 ), ( "2025-01-02", 200 ) ] := rfl
    rw [h]
    norm_num
  · have h : monthly_totals [ ( "2025-01-01", (150:ℚ) ), ( "2025-01-02", 200 ) ] =
        [ ( "2025-01", (150:ℚ) + 200 ) ] := rfl
    rw [h]
    norm_num

/-- C8: the empty record list makes every aggregation return an empty
mapping (all-zero metrics for the response computation) without error. -/
theorem empty_inputs_give_empty_outputs :
    bucket_by_date [] = Except.ok [] ∧
    weekly_totals [] = some [] ∧
    monthly_totals [] = [] ∧
    get_lead_response_metrics [] = Except.ok ⟨0, 0, 0, 0⟩ :=
  ⟨rfl, rfl, rfl, rfl⟩

/-- C4 counterexample: the weekly roll-up key of 2025-01-01 is
`2025-W00` (strftime `%U`, Sunday-start with week 00), while the
ISO-8601 week key of that date is `2025-W01` — so the weekly roll-up
does not reduce daily keys to the ISO week number. -/
theorem weekly_key_not_iso :
    weekly_totals [ ( "2025-01-01", (100:ℚ) ) ] = some [ ( "2025-W00", 100 ) ] ∧
    isoWeekKey 2025 1 1 = "2025-W01" ∧
    ( "2025-W00" : String) ≠ "2025-W01" :=
  ⟨rfl, rfl, by decide⟩

theorem wday_eq_jan1 (y m d : Nat) :
    wday y m d = (wday y 1 1 + dayOfYear0 y m d) % 7 := by
  have h0 : dayOfYear0 y 1 1 = 0 := rfl
  unfold wday rataDie
  rw [h0]
  omega

theorem uweek_count_aux (w0 : Nat) (hw : w0 < 7) :
    ∀ yd : Nat, (yd + 7 - (w0 + yd) % 7) / 7 =
      ((List.range (yd + 1)).filter (fun j => (w0 + j) % 7 == 0)).length := by
  intro yd
  induction yd with
  | zero => interval_cases w0 <;> decide
  | succ yd ih =>
    have hr : List.range (yd + 1 + 1) = List.range (yd + 1) ++ [yd + 1] :=
      List.range_succ (yd + 1)
    rw [hr, List.filter_append, List.length_append]
    by_cases hc : (w0 + (yd + 1)) % 7 = 0
    · have hf : List.filter (fun j => (w0 + j) % 7 == 0) [yd + 1] = [yd + 1] := by
        simp [List.filter_cons, hc]
      rw [hf]
      simp only [List.length_cons, List.length_nil]
      omega
    · have hf : List.filter (fun j => (w0 + j) % 7 == 0) [yd + 1] = [] := by
        simp [List.filter_cons, hc]
      rw [hf]
      simp only [List.length_nil]
      omega

/-- C4 (amended): weekly roll-up reduces each daily key `YYYY-MM-DD`
to `YYYY-Wnn` where `nn` is the zero-padded Sunday-start week number of
the date within its year — the number of Sundays of the year that have
occurred up to and including the date, so that days before the year's
first Sunday fall in week 00 (the strftime `%U` convention) — not the
ISO-8601 week number. -/
theorem weekly_key_is_sunday_start (s : String) (dt : Date)
    (h : parseDate s = some dt) :
    strftime_week s =
      some (toString dt.year ++ "-W" ++
        pad2 (sundayCount dt.year (dayOfYear0 dt.year dt.month dt.day))) := by
  rw [strftime_week, h, Option.map_some']
  have hu : uWeek dt.year dt.month dt.day =
      sundayCount dt.year (dayOfYear0 dt.year dt.month dt.day) := by
    unfold uWeek sundayCount
    rw [wday_eq_jan1]
    exact uweek_count_aux (wday dt.year 1 1) (Nat.mod_lt _ (by norm_num)) _
  simp only [week_key, hu]

/-- Witness for the amended C4 at the concrete daily key 2025-01-01. -/
theorem weekly_key_is_sunday_start_witness :
    parseDate "2025-01-01" = some ⟨2025, 1, 1⟩ ∧
    strftime_week "2025-01-01" =
      some (toString (2025 : Nat) ++ "-W" ++ pad2 (sundayCount 2025 (dayOfYear0 2025 1 1))) :=
  ⟨rfl, weekly_key_is_sunday_start "2025-01-01" ⟨2025, 1, 1⟩ rfl⟩

theorem opp_date_wf (o : Opp) (h : wf_opp o = true) :
    opp_date o = Except.ok (opp_date_total o) := by
  unfold wf_opp at h
  unfold opp_date opp_date_total
  cases hv : o.closedDate.getD (o.createdAt.getD (JVal.s "")) <;> simp [hv] at h ⊢

theorem opp_value_wf (o : Opp) (h : wf_opp o = true) :
    opp_value o = Except.ok (opp_value_total o) := by
  unfold wf_opp at h
  unfold opp_value opp_value_total
  cases hv : o.monetaryValue.getD (JVal.n 0) with
  | n q => simp
  | s str =>
    simp [hv] at h
    obtain ⟨q, hq⟩ := Option.isSome_iff_exists.mp h.2
    simp [hq]
  | null => simp [hv] at h

theorem bucket_fold_wf (opps : List Opp) (h : ∀ o ∈ opps, wf_opp o = true) :
    ∀ acc : List (String × ℚ),
      bucket_fold acc opps =
        Except.ok (opps.foldl (fun a o => addTo a (opp_date_total o) (opp_value_total o)) acc) := by
  induction opps with
  | nil => intro acc; rfl
  | cons o rest ih =>
    intro acc
    have ho := h o (by simp)
    rw [bucket_fold, opp_date_wf o ho, opp_value_wf o ho, List.foldl_cons]
    exact ih (fun x hx => h x (by simp [hx])) _

/-- C5 counterexample: a record whose `monetaryValue` is present but not
numeric makes the daily bucketing raise `ValueError` (`float('abc')` is
not caught), so bucketing does not return a mapping for every input. -/
theorem bucketing_raises_on_non_numeric :
    bucket_by_date [⟨some (JVal.s "2025-01-01"), Option.none, some (JVal.s "abc")⟩] =
      Except.error "ValueError" :=
  rfl

/-- C5 (amended): daily bucketing never fails on records whose used date
field is a string and whose `monetaryValue`, when present, is a number
or a numeric string: the date is taken from the closing-date field,
defaulting to the creation-date field when absent, a missing monetary
value is treated as 0, and a mapping is returned; but a present
non-numeric monetary value raises an uncaught `ValueError`/`TypeError`
(it is not coerced to 0 and nothing is logged). -/
theorem bucketing_ok_on_wf_records (opps : List Opp)
    (h : ∀ o ∈ opps, wf_opp o = true) :
    bucket_by_date opps = Except.ok (bucket_by_date_wf opps) :=
  bucket_fold_wf opps h []

/-- Witness for the amended C5: records with a missing monetary value, a
numeric-string value, and a `createdAt` fallback date. -/
theorem bucketing_ok_on_wf_records_witness :
    (∀ o ∈ [(⟨some (JVal.s "2025-01-03"), Option.none, Option.none⟩ : Opp),
            ⟨Option.none, some (JVal.s "2025-01-04T08:00:00Z"), some (JVal.s "12.5")⟩,
            ⟨some (JVal.s "2025-01-03"), Option.none, some (JVal.n 7)⟩], wf_opp o = true) ∧
    bucket_by_date [(⟨some (JVal.s "2025-01-03"), Option.none, Option.none⟩ : Opp),
            ⟨Option.none, some (JVal.s "2025-01-04T08:00:00Z"), some (JVal.s "12.5")⟩,
            ⟨some (JVal.s "2025-01-03"), Option.none, some (JVal.n 7)⟩] =
      Except.ok (bucket_by_date_wf
        [(⟨some (JVal.s "2025-01-03"), Option.none, Option.none⟩ : Opp),
            ⟨Option.none, some (JVal.s "2025-01-04T08:00:00Z"), some (JVal.s "12.5")⟩,
            ⟨some (JVal.s "2025-01-03"), Option.none, some (JVal.n 7)⟩]) :=
  ⟨by decide, bucketing_ok_on_wf_records _ (by decide)⟩

theorem response_time_list_eq (contacts : List GoHighLevelAPI.Contact)
    (h : ∀ c ∈ contacts, (truthy c.createdAt && truthy c.lastContactedDate) = true →
      (fromiso (pyRepZ (c.createdAt.getD ""))).isSome = true ∧
      (fromiso (pyRepZ (c.lastContactedDate.getD ""))).isSome = true ∧
      Option.map Prod.snd (fromiso (pyRepZ (c.createdAt.getD ""))) =
        Option.map Prod.snd (fromiso (pyRepZ (c.lastContactedDate.getD "")))) :
    response_time_list contacts = Except.ok (spec_latencies contacts) := by
  induction contacts with
  | nil => rfl
  | cons c rest ih =>
    have hrest := ih (fun x hx hb => h x (by simp [hx]) hb)
    by_cases hb : (truthy c.createdAt && truthy c.lastContactedDate) = true
    · obtain ⟨h1, h2, h3⟩ := h c (by simp) hb
      obtain ⟨cr, hcr⟩ := Option.isSome_iff_exists.mp h1
      obtain ⟨ct, hct⟩ := Option.isSome_iff_exists.mp h2
      rw [hcr, hct] at h3
      simp only [Option.map_some', Option.some.injEq] at h3
      have hbeq : (ct.2 == cr.2) = true := beq_iff_eq.mpr h3.symm
      rw [response_time_list, spec_latencies, if_pos hb, if_pos hb, hcr, hct]
      simp [hbeq, hrest]
    · rw [response_time_list, spec_latencies, if_neg hb, if_neg hb, hrest]

/-- C7: for every list of contacts whose present timestamps parse and
are pairwise subtractable (both naive or both offset-aware, as the
source's `datetime` subtraction requires), the metrics are total =
number of contacts, responded = number of contacts with a (truthy)
last-contact timestamp, response_rate = responded/total (0 when total =
0), and avg_response_time_minutes = mean latency in minutes over the
contacts having both timestamps (0 when none has both). -/
theorem lead_metrics_spec (contacts : List GoHighLevelAPI.Contact)
    (h : ∀ c ∈ contacts, (truthy c.createdAt && truthy c.lastContactedDate) = true →
      (fromiso (pyRepZ (c.createdAt.getD ""))).isSome = true ∧
      (fromiso (pyRepZ (c.lastContactedDate.getD ""))).isSome = true ∧
      Option.map Prod.snd (fromiso (pyRepZ (c.createdAt.getD ""))) =
        Option.map Prod.snd (fromiso (pyRepZ (c.lastContactedDate.getD "")))) :
    get_lead_response_metrics contacts = Except.ok
      ⟨contacts.length,
       (contacts.filter (fun c => truthy c.lastContactedDate)).length,
       (if contacts.length = 0 then 0
        else ((contacts.filter (fun c => truthy c.lastContactedDate)).length : ℚ) /
          (contacts.length : ℚ)),
       (if spec_latencies contacts = [] then 0
        else (spec_latencies contacts).sum / ((spec_latencies contacts).length : ℚ))⟩ := by
  simp only [get_lead_response_metrics, response_time_list_eq contacts h]
  by_cases h0 : contacts.length = 0
  · cases hsl : spec_latencies contacts with
    | nil => simp [h0, hsl]
    | cons a as => simp [h0, hsl]
  · cases hsl : spec_latencies contacts with
    | nil => simp [h0, Nat.pos_of_ne_zero h0, hsl]
    | cons a as => simp [h0, Nat.pos_of_ne_zero h0, hsl]

/-- Witness for C7 at the spec's two-contact scenario: the result is
total 2, responded 1, rate 1/2, average latency 10 minutes. -/
theorem lead_metrics_spec_witness :
    (∀ c ∈ [(⟨some "2025-01-01T00:00:00Z", some "2025-01-01T00:10:00Z"⟩ : GoHighLevelAPI.Contact),
            ⟨some "2025-01-01T00:00:00Z", Option.none⟩],
      (truthy c.createdAt && truthy c.lastContactedDate) = true →
      (fromiso (pyRepZ (c.createdAt.getD ""))).isSome = true ∧
      (fromiso (pyRepZ (c.lastContactedDate.getD ""))).isSome = true ∧
      Option.map Prod.snd (fromiso (pyRepZ (c.createdAt.getD ""))) =
        Option.map Prod.snd (fromiso (pyRepZ (c.lastContactedDate.getD "")))) ∧
    get_lead_response_metrics
        [(⟨some "2025-01-01T00:00:00Z", some "2025-01-01T00:10:00Z"⟩ : GoHighLevelAPI.Contact),
         ⟨some "2025-01-01T00:00:00Z", Option.none⟩] =
      Except.ok ⟨2, 1, 1/2, 10⟩ := by
  constructor
  · decide
  · have h := lead_metrics_spec
      [(⟨some "2025-01-01T00:00:00Z", some "2025-01-01T00:10:00Z"⟩ : GoHighLevelAPI.Contact),
       ⟨some "2025-01-01T00:00:00Z", Option.none⟩] (by decide)
    refine h.trans ?_
    show Except.ok
        (⟨2, 1, ((1:ℕ):ℚ) / ((2:ℕ):ℚ),
          (((600:ℤ):ℚ) / 60 + 0) / ((1:ℕ):ℚ)⟩ : GoHighLevelAPI.LeadMetrics) = _
    norm_num

theorem refresh_token_ok_inv (st : ClientState) (resp : TokenEndpointResponse)
    (t : TokenDict) (st' : ClientState)
    (h : GoHighLevelOAuthClient.refresh_token st resp = (PyResult.ok t, st')) :
    resp = TokenEndpointResponse.accept t ∧ st' = ⟨some t, some t⟩ := by
  cases hst : st.token with
  | none => simp [GoHighLevelOAuthClient.refresh_token, hst] at h
  | some tk =>
    cases hrt : tk.refresh_token with
    | none => simp [GoHighLevelOAuthClient.refresh_token, hst, hrt] at h
    | some rt =>
      cases resp with
      | accept nt =>
        simp [GoHighLevelOAuthClient.refresh_token, hst, hrt] at h
        obtain ⟨h1, h2⟩ := h
        subst h1
        exact ⟨rfl, h2.symm⟩
      | reject code => simp [GoHighLevelOAuthClient.refresh_token, hst, hrt] at h

/-- C1: with a stored token whose `expires_at` is at least 301 seconds
after `now`, the validity check returns true and a GET/POST call
proceeds with the stored token, no refresh and no state change; with an
`expires_at` less than 300 seconds ahead (or past), the validity check
returns false and the call performs exactly one refresh and issues the
request with the refreshed token (which becomes the stored token). -/
theorem token_validity_guards_requests
    (st : ClientState) (tk : TokenDict) (e now : ℚ) (resp : TokenEndpointResponse)
    (hst : st.token = some tk) (he : tk.expires_at = some e) (hnow : 0 ≤ now) :
    (now + 301 ≤ e →
      is_token_valid st.token now = true ∧
      GoHighLevelOAuthClient.get st now resp = (⟨0, st.token⟩, st) ∧
      GoHighLevelOAuthClient.post st now resp = (⟨0, st.token⟩, st)) ∧
    (e < now + 300 →
      is_token_valid st.token now = false ∧
      ∀ rt nt, tk.refresh_token = some rt → resp = TokenEndpointResponse.accept nt →
        GoHighLevelOAuthClient.get st now resp = (⟨1, some nt⟩, ⟨some nt, some nt⟩) ∧
        GoHighLevelOAuthClient.post st now resp = (⟨1, some nt⟩, ⟨some nt, some nt⟩)) := by
  constructor
  · intro hfar
    have hvalid : is_token_valid st.token now = true := by
      rw [hst]
      simp only [is_token_valid, he]
      rw [if_neg (by intro h0; rw [h0] at hfar; linarith)]
      exact decide_eq_true (by linarith)
    refine ⟨hvalid, ?_, ?_⟩
    · simp [GoHighLevelOAuthClient.get, hvalid]
    · simp [GoHighLevelOAuthClient.post, hvalid]
  · intro hnear
    have hinvalid : is_token_valid st.token now = false := by
      rw [hst]
      simp only [is_token_valid, he]
      by_cases h0 : e = 0
      · rw [if_pos h0]
      · rw [if_neg h0]
        exact decide_eq_false (by linarith)
    refine ⟨hinvalid, ?_⟩
    intro rt nt hrt hresp
    subst hresp
    have hinvalid' : is_token_valid (some tk) now = false := by
      rw [← hst]
      exact hinvalid
    constructor
    · simp [GoHighLevelOAuthClient.get, hinvalid', GoHighLevelOAuthClient.refresh_token, hst, hrt]
    · simp [GoHighLevelOAuthClient.post, hinvalid', GoHighLevelOAuthClient.refresh_token, hst, hrt]

/-- Witness for C1: a token expiring in 1000 seconds is used as stored
at `now = 0`; a token expiring in 100 seconds triggers one refresh whose
result is used. -/
theorem token_validity_guards_requests_witness :
    ((0:ℚ) ≤ 0 ∧ (0:ℚ) + 301 ≤ 1000 ∧ (100:ℚ) < 0 + 300) ∧
    (is_token_valid
        (some ⟨some "at", some "rt", some "Bearer", some 1000, some []⟩) 0 = true ∧
      GoHighLevelOAuthClient.get
          ⟨some ⟨some "at", some "rt", some "Bearer", some 1000, some []⟩,
           some ⟨some "at", some "rt", some "Bearer", some 1000, some []⟩⟩ 0
          (TokenEndpointResponse.accept ⟨some "a2", some "r2", some "Bearer", some 9000, some []⟩) =
        (⟨0, some ⟨some "at", some "rt", some "Bearer", some 1000, some []⟩⟩,
         ⟨some ⟨some "at", some "rt", some "Bearer", some 1000, some []⟩,
          some ⟨some "at", some "rt", some "Bearer", some 1000, some []⟩⟩)) ∧
    (is_token_valid
        (some ⟨some "at", some "rt", some "Bearer", some 100, some []⟩) 0 = false ∧
      GoHighLevelOAuthClient.get
          ⟨some ⟨some "at", some "rt", some "Bearer", some 100, some []⟩,
           some ⟨some "at", some "rt", some "Bearer", some 100, some []⟩⟩ 0
          (TokenEndpointResponse.accept ⟨some "a2", some "r2", some "Bearer", some 9000, some []⟩) =
        (⟨1, some ⟨some "a2", some "r2", some "Bearer", some 9000, some []⟩⟩,
         ⟨some ⟨some "a2", some "r2", some "Bearer", some 9000, some []⟩,
          some ⟨some "a2", some "r2", some "Bearer", some 9000, some []⟩⟩)) := by
  have h1 := token_validity_guards_requests
    ⟨some ⟨some "at", some "rt", some "Bearer", some 1000, some []⟩,
     some ⟨some "at", some "rt", some "Bearer", some 1000, some []⟩⟩
    ⟨some "at", some "rt", some "Bearer", some 1000, some []⟩ 1000 0
    (TokenEndpointResponse.accept ⟨some "a2", some "r2", some "Bearer", some 9000, some []⟩)
    rfl rfl (by norm_num)
  have h2 := token_validity_guards_requests
    ⟨some ⟨some "at", some "rt", some "Bearer", some 100, some []⟩,
     some ⟨some "at", some "rt", some "Bearer", some 100, some []⟩⟩
    ⟨some "at", some "rt", some "Bearer", some 100, some []⟩ 100 0
    (TokenEndpointResponse.accept ⟨some "a2", some "r2", some "Bearer", some 9000, some []⟩)
    rfl rfl (by norm_num)
  obtain ⟨hv1, hg1, -⟩ := h1.1 (by norm_num)
  obtain ⟨hv2, hrest⟩ := h2.2 (by norm_num)
  obtain ⟨hg2, -⟩ := hrest "rt"
    ⟨some "a2", some "r2", some "Bearer", some 9000, some []⟩ rfl rfl
  exact ⟨⟨by norm_num, by norm_num, by norm_num⟩, ⟨hv1, hg1⟩, ⟨hv2, hg2⟩⟩

/-- C2 counterexample: when the token endpoint rejects the refresh with
HTTP 400, `refresh_token` returns `None` (the exception is caught inside
the method) and leaves the state unchanged — it does not fail with an
`AuthenticationError` exception, and no such exception class exists in
the code. -/
theorem refresh_reject_returns_none :
    GoHighLevelOAuthClient.refresh_token
        ⟨some ⟨some "at", some "rt", some "Bearer", some 1000, some []⟩,
         some ⟨some "at", some "rt", some "Bearer", some 1000, some []⟩⟩
        (TokenEndpointResponse.reject 400) =
      (PyResult.none,
       ⟨some ⟨some "at", some "rt", some "Bearer", some 1000, some []⟩,
        some ⟨some "at", some "rt", some "Bearer", some 1000, some []⟩⟩) ∧
    (PyResult.none : PyResult TokenDict) ≠ PyResult.raised "AuthenticationError" :=
  ⟨rfl, by decide⟩

/-- C2 (amended): when the stored token is absent, its refresh token is
absent, or the token endpoint rejects the refresh request (e.g. HTTP
400), `refresh_token` fails by returning `None` — the error is caught
and logged, no `AuthenticationError` is raised — and both the in-memory
token and the persisted record are exactly the same after the failed
call as before it. -/
theorem refresh_failure_leaves_state_unchanged
    (st : ClientState) (resp : TokenEndpointResponse)
    (h : st.token = Option.none ∨
         (∃ tk, st.token = some tk ∧ tk.refresh_token = Option.none) ∨
         ∃ code, resp = TokenEndpointResponse.reject code) :
    GoHighLevelOAuthClient.refresh_token st resp = (PyResult.none, st) := by
  rcases h with h | ⟨tk, htk, hrt⟩ | ⟨code, hresp⟩
  · simp [GoHighLevelOAuthClient.refresh_token, h]
  · simp [GoHighLevelOAuthClient.refresh_token, htk, hrt]
  · subst hresp
    cases hst : st.token with
    | none => simp [GoHighLevelOAuthClient.refresh_token, hst]
    | some tk =>
      cases hrt : tk.refresh_token with
      | none => simp [GoHighLevelOAuthClient.refresh_token, hst, hrt]
      | some rt => simp [GoHighLevelOAuthClient.refresh_token, hst, hrt]

/-- Witness for the amended C2: a state holding a refreshable token and
a 400-rejecting endpoint. -/
theorem refresh_failure_leaves_state_unchanged_witness :
    ((⟨some ⟨some "at", some "rt", some "Bearer", some 1000, some []⟩,
       some ⟨some "at", some "rt", some "Bearer", some 1000, some []⟩⟩ : ClientState).token =
        Option.none ∨
      (∃ tk, (⟨some ⟨some "at", some "rt", some "Bearer", some 1000, some []⟩,
        some ⟨some "at", some "rt", some "Bearer", some 1000, some []⟩⟩ : ClientState).token =
          some tk ∧ tk.refresh_token = Option.none) ∨
      ∃ code, TokenEndpointResponse.reject 400 = TokenEndpointResponse.reject code) ∧
    GoHighLevelOAuthClient.refresh_token
        ⟨some ⟨some "at", some "rt", some "Bearer", some 1000, some []⟩,
         some ⟨some "at", some "rt", some "Bearer", some 1000, some []⟩⟩
        (TokenEndpointResponse.reject 400) =
      (PyResult.none,
       ⟨some ⟨some "at", some "rt", some "Bearer", some 1000, some []⟩,
        some ⟨some "at", some "rt", some "Bearer", some 1000, some []⟩⟩) :=
  ⟨Or.inr (Or.inr ⟨400, rfl⟩),
   refresh_failure_leaves_state_unchanged _ _ (Or.inr (Or.inr ⟨400, rfl⟩))⟩

/-- C10: when no token is stored, or the stored token has no
`expires_at` field, the validity check returns false, so a GET/POST call
performs exactly one refresh attempt before any request and the request
is issued either not at all or with the freshly refreshed token — never
with the token of unknown expiry. -/
theorem missing_expiry_forces_refresh
    (st : ClientState) (now : ℚ) (resp : TokenEndpointResponse)
    (h : st.token = Option.none ∨ ∃ tk, st.token = some tk ∧ tk.expires_at = Option.none) :
    is_token_valid st.token now = false ∧
    (GoHighLevelOAuthClient.get st now resp).1.refreshCalls = 1 ∧
    ((GoHighLevelOAuthClient.get st now resp).1.requested = Option.none ∨
      ∃ nt, resp = TokenEndpointResponse.accept nt ∧
        (GoHighLevelOAuthClient.get st now resp).1.requested = some nt) ∧
    GoHighLevelOAuthClient.post st now resp = GoHighLevelOAuthClient.get st now resp := by
  have hinvalid : is_token_valid st.token now = false := by
    rcases h with h | ⟨tk, htk, hexp⟩
    · simp [is_token_valid, h]
    · simp [is_token_valid, htk, hexp]
  refine ⟨hinvalid, ?_, ?_, rfl⟩
  · rcases hr : GoHighLevelOAuthClient.refresh_token st resp with ⟨res, st'⟩
    cases res <;> simp [GoHighLevelOAuthClient.get, hinvalid, hr]
  · rcases hr : GoHighLevelOAuthClient.refresh_token st resp with ⟨res, st'⟩
    cases res with
    | ok t =>
      right
      obtain ⟨hresp, hst'⟩ := refresh_token_ok_inv st resp t st' hr
      exact ⟨t, hresp, by simp [GoHighLevelOAuthClient.get, hinvalid, hr]⟩
    | none => left; simp [GoHighLevelOAuthClient.get, hinvalid, hr]
    | raised e => left; simp [GoHighLevelOAuthClient.get, hinvalid, hr]

/-- Witness for C10: no stored token, endpoint accepting, at `now = 0`. -/
theorem missing_expiry_forces_refresh_witness :
    ((⟨Option.none, Option.none⟩ : ClientState).token = Option.none ∨
      ∃ tk, (⟨Option.none, Option.none⟩ : ClientState).token = some tk ∧
        tk.expires_at = Option.none) ∧
    is_token_valid (⟨Option.none, Option.none⟩ : ClientState).token 0 = false ∧
    (GoHighLevelOAuthClient.get ⟨Option.none, Option.none⟩ 0
        (TokenEndpointResponse.reject 400)).1.refreshCalls = 1 ∧
    ((GoHighLevelOAuthClient.get ⟨Option.none, Option.none⟩ 0
        (TokenEndpointResponse.reject 400)).1.requested = Option.none ∨
      ∃ nt, TokenEndpointResponse.reject 400 = TokenEndpointResponse.accept nt ∧
        (GoHighLevelOAuthClient.get ⟨Option.none, Option.none⟩ 0
          (TokenEndpointResponse.reject 400)).1.requested = some nt) :=
  ⟨Or.inl rfl,
   (missing_expiry_forces_refresh ⟨Option.none, Option.none⟩ 0
      (TokenEndpointResponse.reject 400) (Or.inl rfl)).1,
   (missing_expiry_forces_refresh ⟨Option.none, Option.none⟩ 0
      (TokenEndpointResponse.reject 400) (Or.inl rfl)).2.1,
   (missing_expiry_forces_refresh ⟨Option.none, Option.none⟩ 0
      (TokenEndpointResponse.reject 400) (Or.inl rfl)).2.2.1⟩

theorem load_token_map_upd (t : TokenDict) (now : ℚ) :
    ∀ tbl : List (Nat × token_storage.TokenRow),
      (tbl.find? (fun r => r.1 == 1)).isSome = true →
      load_token (tbl.map (fun r =>
          if r.1 == 1 then (1, token_storage.row_of t r.2.created_at now) else r)) =
        some ⟨t.token_type.getD "Bearer", t.access_token.getD "", t.refresh_token.getD "",
          t.expires_at.getD 0, t.scope.getD []⟩ := by
  intro tbl
  induction tbl with
  | nil => intro h; simp [List.find?] at h
  | cons r rest ih =>
    intro h
    by_cases h1 : (r.1 == 1) = true
    · simp only [List.map_cons, if_pos h1]
      rw [load_token, List.find?_cons_of_pos _ (by simp)]
      rfl
    · have hb : (r.1 == 1) = false := by simpa using h1
      simp only [List.find?_cons, hb] at h
      simp only [List.map_cons, if_neg h1]
      rw [load_token]
      simp only [List.find?_cons, hb]
      exact ih h

theorem load_token_append (t : TokenDict) (now : ℚ) :
    ∀ tbl : List (Nat × token_storage.TokenRow),
      tbl.find? (fun r => r.1 == 1) = none →
      load_token (tbl ++ [(1, token_storage.row_of t now now)]) =
        some ⟨t.token_type.getD "Bearer", t.access_token.getD "", t.refresh_token.getD "",
          t.expires_at.getD 0, t.scope.getD []⟩ := by
  intro tbl
  induction tbl with
  | nil =>
    intro _
    rw [List.nil_append, load_token, List.find?_cons_of_pos _ (by simp)]
    rfl
  | cons r rest ih =>
    intro h
    by_cases h1 : (r.1 == 1) = true
    · simp [List.find?_cons, h1] at h
    · have hb : (r.1 == 1) = false := by simpa using h1
      simp only [List.find?_cons, hb] at h
      rw [List.cons_append, load_token]
      simp only [List.find?_cons, hb]
      exact ih h

theorem load_after_save (tbl : List (Nat × token_storage.TokenRow)) (now : ℚ) (t : TokenDict) :
    load_token (save_token now t tbl) =
      some ⟨t.token_type.getD "Bearer", t.access_token.getD "", t.refresh_token.getD "",
        t.expires_at.getD 0, t.scope.getD []⟩ := by
  by_cases h : (tbl.find? (fun r => r.1 == 1)).isSome = true
  · rw [save_token, if_pos h]
    exact load_token_map_upd t now tbl h
  · rw [save_token, if_neg h]
    exact load_token_append t now tbl (by
      rcases hf : tbl.find? (fun r => r.1 == 1) with - | v
      · exact hf
      · rw [hf] at h
        simp at h)

theorem run_ops_shape (ops : List token_storage.StoreOp) :
    ∀ tbl : List (Nat × token_storage.TokenRow),
      (tbl = [] ∨ ∃ row, tbl = [(1, row)]) →
      (run_ops tbl ops = [] ∨ ∃ row, run_ops tbl ops = [(1, row)]) := by
  induction ops with
  | nil => intro tbl h; exact h
  | cons op rest ih =>
    intro tbl h
    cases op with
    | save now t =>
      apply ih
      rcases h with h | ⟨row, h⟩
      · subst h
        exact Or.inr ⟨token_storage.row_of t now now, rfl⟩
      · subst h
        exact Or.inr ⟨token_storage.row_of t row.created_at now, rfl⟩
    | load => exact ih tbl h
    | delete =>
      apply ih
      rcases h with h | ⟨row, h⟩ <;> subst h <;> exact Or.inl rfl

/-- C9: starting from an empty store, any sequence of save/load/delete
operations leaves at most one token record (the row with id 1) in the
table; every save writes all five token fields of that record, filling
missing fields with the defaults `'Bearer'`, `''`, `''`, `0`, `[]`; and
a load immediately after a save returns exactly the saved token's five
fields. -/
theorem token_store_single_row_roundtrip :
    (∀ ops : List token_storage.StoreOp, (run_ops [] ops).length ≤ 1) ∧
    (∀ (tbl : List (Nat × token_storage.TokenRow)) (now : ℚ) (t : TokenDict),
      load_token (save_token now t tbl) =
        some ⟨t.token_type.getD "Bearer", t.access_token.getD "", t.refresh_token.getD "",
          t.expires_at.getD 0, t.scope.getD []⟩) := by
  constructor
  · intro ops
    rcases run_ops_shape ops [] (Or.inl rfl) with h | ⟨row, h⟩ <;> rw [h] <;> simp
  · intro tbl now t
    exact load_after_save tbl now t
